import Mathlib

/-!
# Verification of the `webrtc_demo` signaling server's room broker

A shallow embedding of `signaling-server/server.js`: the `clients` and
`rooms` maps, the message handlers (`registerClient`, `joinRoom`,
`relaySignalingMessage`, `sendAvailableRooms`, `handleMessage`, the
`ws.on('message')` wrapper), the `ws.on('close')` handler with its grace
`setTimeout` callback, and the heartbeat cycle.

JavaScript `Map`s are embedded as insertion-ordered association lists
(`lookupA`, `setA`, `delA`).  Room objects are mutated in place in the
source and a reference to one is captured by the grace-expiry closure
(server.js lines 130-148), so rooms live in an explicit heap
(`roomHeap : List (ObjId × Room)`) and the `rooms` map and each pending
timer hold object ids into it; all other aliasing in the source is
confined to a single handler invocation and is reflected by the
read-update-write style of each embedded handler.
-/

namespace WebrtcDemo

/-- Connection identifiers (`uuidv4()` strings in the source, line 54). -/
abbrev ClientId := String

/-- Heap identity of a room object: the grace-expiry closure captures a room
*reference*, so object identity is observable. -/
abbrev ObjId := Nat

/-- `CLIENT_TYPES` (server.js lines 45-48). -/
inductive ClientType where
  | robot
  | web
deriving DecidableEq, Repr

/-- The three relayed signaling message types (server.js lines 178-180). -/
inductive SigKind where
  | offer
  | answer
  | iceCandidate
deriving DecidableEq, Repr

/-- First-match lookup in an association list (JS `Map.get`). -/
def lookupA {α β : Type} [DecidableEq α] : List (α × β) → α → Option β
  | [], _ => none
  | (k, v) :: rest, k' => if k = k' then some v else lookupA rest k'

/-- JS `Map.set`: overwrite the value at an existing key keeping its position,
else append the new entry. -/
def setA {α β : Type} [DecidableEq α] : List (α × β) → α → β → List (α × β)
  | [], k, v => [(k, v)]
  | (k0, v0) :: rest, k, v =>
      if k0 = k then (k0, v) :: rest else (k0, v0) :: setA rest k v

/-- JS `Map.delete`: drop the entry at the key. -/
def delA {α β : Type} [DecidableEq α] : List (α × β) → α → List (α × β)
  | [], _ => []
  | (k0, v0) :: rest, k =>
      if k0 = k then rest else (k0, v0) :: delA rest k

/-- An entry of the `clients` map as written by `registerClient`
(server.js lines 205-210); the socket handle itself is not modelled. -/
structure ClientInfo where
  type : ClientType
  robotId : Option String
  joinedAt : Nat
deriving DecidableEq, Repr

/-- A room object `{ robot, web, robotDisconnectedAt }` (created at line 237,
fields mutated at lines 116-117, 152, 243, 255, 300). -/
structure Room where
  robot : Option ClientId := none
  web : Option ClientId := none
  robotDisconnectedAt : Option Nat := none
deriving DecidableEq, Repr

/-- A pending grace `setTimeout` (server.js lines 130-148).  The scheduled
closure holds the `roomId` and the *reference* `capturedObj` to the room
object that was current when it was scheduled — not a copy of the
timestamp. -/
structure Timer where
  roomId : String
  capturedObj : ObjId
  fireAt : Nat
deriving DecidableEq, Repr

/-- An entry of the `availableRooms` reply (server.js lines 382-397). -/
structure RoomEntry where
  roomId : String
  robotId : String
  robotConnectedAt : Option Nat
  status : String
deriving DecidableEq, Repr

/-- Outbound frames (server → client), one constructor per `type` the server
sends; free-text `message` fields that carry no state are omitted. -/
inductive OutMsg where
  | registered (clientId : ClientId) (clientType : ClientType)
  | errorMsg (message : String)
  | roomJoined (roomId : String) (role : ClientType)
      (hasRobot hasWeb robotDisconnected : Bool)
  | roomStatus (roomId : String) (status : String)
  | peerJoined (peerId : ClientId) (peerType : ClientType) (robotId : Option String)
  | peerDisconnected
  | robotDisconnected (roomId : String)
  | robotReconnected (roomId : String) (robotId : Option String)
  | roomClosed (roomId : String)
  | availableRooms (rooms : List RoomEntry)
  | pong (timestamp : Nat)
  | relayed (k : SigKind) (payload : Nat) (fromId : ClientId)
deriving DecidableEq, Repr

/-- Inbound frames after `JSON.parse`; `unknown` is any unrecognized `type`
discriminator, the relayed kinds carry an opaque payload. -/
inductive InMsg where
  | register (clientType : String) (robotId : Option String)
  | joinRoomMsg (roomId : String)
  | signaling (k : SigKind) (payload : Nat)
  | getRooms
  | ping
  | unknown (t : String)
deriving DecidableEq, Repr

/-- The server's mutable state: the `clients` map (line 41), the `rooms` map
(line 42) as roomId → object id, the heap of room objects, the allocator for
fresh object ids, and the pending grace timers. -/
structure ServerState where
  clients : List (ClientId × ClientInfo)
  roomHeap : List (ObjId × Room)
  rooms : List (String × ObjId)
  nextObj : ObjId
  timers : List Timer
deriving DecidableEq, Repr

/-- The state before any connection: both maps empty. -/
def emptyServer : ServerState :=
  { clients := [], roomHeap := [], rooms := [], nextObj := 0, timers := [] }

/-- JS truthiness of `a || b` for an optional string: `undefined` and `""`
are falsy (used at lines 208 and 384). -/
def orFalsy (o : Option String) (d : String) : String :=
  match o with
  | some str => if str = "" then d else str
  | none => d

/-- `registerClient` (server.js lines 194-219): validate `clientType`
against `CLIENT_TYPES`, then unconditionally `clients.set` the new record
and reply `registered`. -/
def registerClient (s : ServerState) (clientId : ClientId)
    (clientType : String) (robotId : Option String) (now : Nat) :
    ServerState × List (ClientId × OutMsg) :=
  if clientType ≠ "robot" ∧ clientType ≠ "web" then
    (s, [(clientId, .errorMsg "Invalid client type")])
  else
    let ct := if clientType = "robot" then ClientType.robot else ClientType.web
    let info : ClientInfo :=
      { type := ct,
        robotId := if ct = .robot then some (orFalsy robotId clientId) else none,
        joinedAt := now }
    ({ s with clients := setA s.clients clientId info },
     [(clientId, .registered clientId ct)])

/-- Server.js lines 317-335: once both slots are occupied and both resolve in
`clients`, notify each side of the other (`peer_joined`). -/
def pairNotify (clients : List (ClientId × ClientInfo)) (room : Room) :
    List (ClientId × OutMsg) :=
  match room.robot, room.web with
  | some rId, some wId =>
      match lookupA clients rId, lookupA clients wId with
      | some rc, some _ =>
          [(rId, .peerJoined wId .web none),
           (wId, .peerJoined rId .robot rc.robotId)]
      | _, _ => []
  | _, _ => []

/-- `joinRoom` (server.js lines 221-338).  The room object is created lazily
(lines 236-239); a robot join first clears a stale disconnect marker
(lines 242-245); the later `rooms.set(roomId, room)` at line 303 re-inserts
the same object reference and is a no-op on the map. -/
def joinRoom (s : ServerState) (clientId : ClientId) (roomId : String) :
    ServerState × List (ClientId × OutMsg) :=
  match lookupA s.clients clientId with
  | none => (s, [(clientId, .errorMsg "Client not registered")])
  | some client =>
    let found := lookupA s.rooms roomId
    let oid := match found with
      | some oid => oid
      | none => s.nextObj
    let s1 := match found with
      | some _ => s
      | none =>
          { s with
              roomHeap := setA s.roomHeap s.nextObj {},
              rooms := setA s.rooms roomId s.nextObj,
              nextObj := s.nextObj + 1 }
    let r0 := (lookupA s1.roomHeap oid).getD {}
    let r1 := if r0.robotDisconnectedAt.isSome ∧ client.type = .robot
              then { r0 with robotDisconnectedAt := none } else r0
    let s2 := { s1 with roomHeap := setA s1.roomHeap oid r1 }
    if client.type = .robot then
      if r1.robot.isSome ∧ r1.robot ≠ some clientId then
        (s2, [(clientId, .errorMsg "Room already has a robot")])
      else
        let r2 := { r1 with robot := some clientId }
        let s3 := { s2 with roomHeap := setA s2.roomHeap oid r2 }
        let reconnectMsgs := match r2.web with
          | some webId =>
              match lookupA s3.clients webId with
              | some _ => [(webId, OutMsg.robotReconnected roomId client.robotId)]
              | none => []
          | none => []
        (s3, reconnectMsgs
              ++ [(clientId, .roomJoined roomId client.type
                    r2.robot.isSome r2.web.isSome r2.robotDisconnectedAt.isSome)]
              ++ pairNotify s3.clients r2)
    else
      if r1.web.isSome ∧ r1.web ≠ some clientId then
        (s2, [(clientId, .errorMsg "Room already has a web client")])
      else if r1.robot.isNone ∧ r1.robotDisconnectedAt.isSome then
        let r2 := { r1 with web := some clientId }
        let s3 := { s2 with roomHeap := setA s2.roomHeap oid r2 }
        (s3, [(clientId, OutMsg.roomStatus roomId "waiting_robot"),
              (clientId, .roomJoined roomId client.type
                    r2.robot.isSome r2.web.isSome r2.robotDisconnectedAt.isSome)]
              ++ pairNotify s3.clients r2)
      else if r1.robot.isNone then
        (s2, [(clientId, OutMsg.roomStatus roomId "no_robot")])
      else
        let r2 := { r1 with web := some clientId }
        let s3 := { s2 with roomHeap := setA s2.roomHeap oid r2 }
        (s3, [(clientId, .roomJoined roomId client.type
                    r2.robot.isSome r2.web.isSome r2.robotDisconnectedAt.isSome)]
              ++ pairNotify s3.clients r2)

/-- The room scan of `relaySignalingMessage` (server.js lines 344-352): the
first room whose robot slot holds the sender yields its web slot (and
conversely), then the loop breaks; `some t?` records that a room matched
with opposite slot `t?` (possibly empty). -/
def relayLoop (heap : List (ObjId × Room)) (senderId : ClientId) :
    List (String × ObjId) → Option (Option ClientId)
  | [] => none
  | (_, oid) :: rest =>
      let room := (lookupA heap oid).getD {}
      if room.robot = some senderId then some room.web
      else if room.web = some senderId then some room.robot
      else relayLoop heap senderId rest

/-- `relaySignalingMessage` (server.js lines 340-372): deliver the payload,
augmented with `from: senderId`, to the opposite slot of the first room
containing the sender; otherwise drop it silently. -/
def relaySignalingMessage (s : ServerState) (senderId : ClientId)
    (k : SigKind) (payload : Nat) : ServerState × List (ClientId × OutMsg) :=
  let target := match relayLoop s.roomHeap senderId s.rooms with
    | some (some t) => some t
    | _ => none
  match target with
  | none => (s, [])
  | some t =>
      match lookupA s.clients t with
      | none => (s, [])
      | some _ => (s, [(t, .relayed k payload senderId)])

/-- The loop of `sendAvailableRooms` (server.js lines 377-399): a room with a
resolvable robot, no disconnect marker and no web client is `available`; a
room with a robot *and* a marker and no web client would be listed as
`robot_disconnected`; every other room is omitted. -/
def availEntries (clients : List (ClientId × ClientInfo))
    (heap : List (ObjId × Room)) : List (String × ObjId) → List RoomEntry
  | [] => []
  | (roomId, oid) :: rest =>
      let room := (lookupA heap oid).getD {}
      let tail := availEntries clients heap rest
      if room.robot.isSome ∧ room.robotDisconnectedAt = none ∧ room.web = none then
        match room.robot with
        | some rId =>
            match lookupA clients rId with
            | some rc =>
                { roomId := roomId, robotId := orFalsy rc.robotId rId,
                  robotConnectedAt := some rc.joinedAt,
                  status := "available" } :: tail
            | none => tail
        | none => tail
      else if room.robot.isSome ∧ room.robotDisconnectedAt.isSome ∧ room.web = none then
        { roomId := roomId, robotId := "disconnected",
          robotConnectedAt := none, status := "robot_disconnected" } :: tail
      else tail

/-- `sendAvailableRooms` (server.js lines 374-406). -/
def sendAvailableRooms (s : ServerState) (requester : ClientId) :
    ServerState × List (ClientId × OutMsg) :=
  (s, [(requester, .availableRooms (availEntries s.clients s.roomHeap s.rooms))])

/-- Server.js lines 106-111 and 121-127: `const otherClient =
clients.get(otherClientId); if (otherClient) safeSend(...)` — the message
goes out only when the target slot is occupied and resolves. -/
def notifyIfResolvable (clients : List (ClientId × ClientInfo))
    (target : Option ClientId) (msg : OutMsg) : List (ClientId × OutMsg) :=
  match target with
  | some o => if (lookupA clients o).isSome then [(o, msg)] else []
  | none => []

/-- The room loop of the `ws.on('close')` handler (server.js lines 102-160):
find the first room binding the disconnecting client, notify the other
occupant, then branch on the stored client type — robot: clear the slot,
stamp `robotDisconnectedAt`, send `robot_disconnected` and schedule the
grace timer; web: clear the web slot; unknown (client not in `clients`):
delete the room.  `break` ends the scan, later rooms are untouched.
Returns (heap, rooms, messages, scheduled timers). -/
def closeLoop (clients : List (ClientId × ClientInfo)) (client : Option ClientInfo)
    (clientId : ClientId) (now : Nat) (heap : List (ObjId × Room)) :
    List (String × ObjId) →
      List (ObjId × Room) × List (String × ObjId) × List (ClientId × OutMsg) × List Timer
  | [] => (heap, [], [], [])
  | (roomId, oid) :: rest =>
      let room := (lookupA heap oid).getD {}
      if room.robot = some clientId ∨ room.web = some clientId then
        let otherId := if room.robot = some clientId then room.web else room.robot
        let m1 := notifyIfResolvable clients otherId .peerDisconnected
        match client with
        | some c =>
            if c.type = .robot then
              let heap2 := setA heap oid
                { room with robot := none, robotDisconnectedAt := some now }
              let m2 := notifyIfResolvable clients otherId (.robotDisconnected roomId)
              (heap2, (roomId, oid) :: rest, m1 ++ m2, [⟨roomId, oid, now + 60000⟩])
            else
              (setA heap oid { room with web := none }, (roomId, oid) :: rest, m1, [])
        | none => (heap, rest, m1, [])
      else
        let (heap2, rest2, msgs, tms) := closeLoop clients client clientId now heap rest
        (heap2, (roomId, oid) :: rest2, msgs, tms)

/-- The `ws.on('close')` handler (server.js lines 96-161): read the client
record, remove it from `clients`, then run the room loop. -/
def closeHandler (s : ServerState) (clientId : ClientId) (now : Nat) :
    ServerState × List (ClientId × OutMsg) :=
  let client := lookupA s.clients clientId
  let clients2 := delA s.clients clientId
  match closeLoop clients2 client clientId now s.roomHeap s.rooms with
  | (heap2, rooms2, msgs, tms) =>
      ({ s with clients := clients2, roomHeap := heap2, rooms := rooms2,
                timers := s.timers ++ tms }, msgs)

/-- The grace `setTimeout` callback (server.js lines 130-148).  The source
compares `currentRoom.robotDisconnectedAt === room.robotDisconnectedAt`,
where `room` is the captured object reference: both sides are read from
the heap *at fire time*.  On a match with an empty robot slot the room is
deleted and a parked web client is sent `room_closed`. -/
def graceTimerFire (s : ServerState) (t : Timer) :
    ServerState × List (ClientId × OutMsg) :=
  match lookupA s.rooms t.roomId with
  | none => (s, [])
  | some oid =>
      let currentRoom := (lookupA s.roomHeap oid).getD {}
      let captured := (lookupA s.roomHeap t.capturedObj).getD {}
      if currentRoom.robot = none ∧
          currentRoom.robotDisconnectedAt = captured.robotDisconnectedAt then
        let msgs := match currentRoom.web with
          | some w => if (lookupA s.clients w).isSome
                      then [(w, OutMsg.roomClosed t.roomId)] else []
          | none => []
        ({ s with rooms := delA s.rooms t.roomId }, msgs)
      else (s, [])

/-- `handleMessage` (server.js lines 168-192): dispatch by `type`; the
switch has no `ping` case, so a `ping` reaching it would fall to the
default branch (it never does, see `onMessage`). -/
def handleMessage (s : ServerState) (clientId : ClientId) (m : InMsg) (now : Nat) :
    ServerState × List (ClientId × OutMsg) :=
  match m with
  | .register ct rid => registerClient s clientId ct rid now
  | .joinRoomMsg roomId => joinRoom s clientId roomId
  | .signaling k p => relaySignalingMessage s clientId k p
  | .getRooms => sendAvailableRooms s clientId
  | .ping => (s, [(clientId, .errorMsg "Unknown message type: ping")])
  | .unknown t => (s, [(clientId, .errorMsg ("Unknown message type: " ++ t))])

/-- The `ws.on('message')` handler (server.js lines 75-94): `none` models a
frame `JSON.parse` rejects and is answered with an error; an application
`ping` is answered with `pong` immediately; everything else goes to
`handleMessage`.  Nothing here ever closes the connection. -/
def onMessage (s : ServerState) (clientId : ClientId) (frame : Option InMsg)
    (now : Nat) : ServerState × List (ClientId × OutMsg) :=
  match frame with
  | none => (s, [(clientId, .errorMsg "Invalid JSON format")])
  | some .ping => (s, [(clientId, .pong now)])
  | some m => handleMessage s clientId m now

/-- One tick of `heartbeatInterval` (server.js lines 498-508) over the
sockets' `isAlive` flags: a socket whose flag is still false is terminated;
a surviving socket has its flag cleared and a probe (`ws.ping()`) sent.
Returns (terminated ids, surviving flag states, probed ids). -/
def heartbeatCycle : List (ClientId × Bool) →
    List ClientId × List (ClientId × Bool) × List ClientId
  | [] => ([], [], [])
  | (cid, alive) :: rest =>
      let (t, ns, p) := heartbeatCycle rest
      if alive then (t, (cid, false) :: ns, cid :: p) else (cid :: t, ns, p)

/-- Connection-level liveness events. -/
inductive ConnEvent where
  | protoPong
  | appPing
deriving DecidableEq, Repr

/-- Effect of a liveness event on a socket's `isAlive` flag: the protocol
`pong` event (server.js lines 70-73) sets it; the application-level `ping`
message (lines 80-84) is answered with `pong` and leaves the flag alone. -/
def connEventStep (alive : Bool) (e : ConnEvent) (now : Nat) :
    Bool × List OutMsg :=
  match e with
  | .protoPong => (true, [])
  | .appPing => (alive, [.pong now])

/-! ## Concrete scenarios

Small executable traces used by the counterexamples and witnesses below. -/

/-- A producer `"R1"` registers and joins room `"r1"`. -/
def joinedState : ServerState :=
  (joinRoom (registerClient emptyServer "R1" "robot" none 0).1 "R1" "r1").1

/-- ...then its connection drops at `t1 = 1000`, scheduling the grace check. -/
def graceState : ServerState := (closeHandler joinedState "R1" 1000).1

/-- ...the producer reconnects as `"R2"` and joins the same room. -/
def rejoinedState : ServerState :=
  (joinRoom (registerClient graceState "R2" "robot" none 2000).1 "R2" "r1").1

/-- ...and disconnects a second time at `t2 = 30000`. -/
def secondDropState : ServerState := (closeHandler rejoinedState "R2" 30000).1

/-- A producer `"R1"` joins `"r1"` and disconnects at `t = 100` with no
viewer ever present: the room is in the grace state. -/
def lonelyGraceState : ServerState := (closeHandler joinedState "R1" 100).1

/-- A web client `"C"` registered at `t = 5`. -/
def webRegistered : ServerState := (registerClient emptyServer "C" "web" none 5).1

/-- A web client `"W"` registered at `t = 3`, no rooms. -/
def viewerOnlyState : ServerState := (registerClient emptyServer "W" "web" none 3).1

/-- Producer `"R"` in room `"r1"`, with web client `"W"` registered. -/
def beforePairState : ServerState :=
  (registerClient (joinRoom (registerClient emptyServer "R" "robot" none 0).1 "R" "r1").1
    "W" "web" none 1).1

/-- ...and `"W"` has joined `"r1"`: the room is paired. -/
def pairedState : ServerState := (joinRoom beforePairState "W" "r1").1

/-- ...the producer `"R"` of the paired room drops at `t = 10`: the room is
in the grace state with the viewer `"W"` still parked in it. -/
def graceParkedState : ServerState := (closeHandler pairedState "R" 10).1

/-- Producer `"R"` bound in both `"r1"` (alone) and `"r2"` (paired with
`"W"`): `join_room` never unbinds a client from other rooms. -/
def twoRoomsState : ServerState :=
  (joinRoom (registerClient
      (joinRoom (joinRoom (registerClient emptyServer "R" "robot" none 0).1 "R" "r1").1
        "R" "r2").1
      "W" "web" none 1).1 "W" "r2").1

/-! ## C1 and C2: the code against its spec -/

/-- C1: the spec requires the grace-expiry check to be a no-op when the
room's current `producerDisconnectedAt` differs from the value captured at
scheduling time, so that after disconnect (t1 = 1000) → re-join →
disconnect (t2 = 30000) the check scheduled at t1 never deletes the room
before t2 + 60000 = 90000.  In the source the closure captures the room
*object*, so the guard compares the live field with itself: the t1 check
fires at 61000 with both sides reading 30000, and deletes the room. -/
theorem c1_stale_grace_check_deletes_recovered_room :
    secondDropState.timers.head? = some ⟨"r1", 0, 61000⟩ ∧
    lookupA secondDropState.rooms "r1" = some 0 ∧
    (lookupA secondDropState.roomHeap 0).map Room.robotDisconnectedAt
      = some (some 30000) ∧
    lookupA ((graceTimerFire secondDropState ⟨"r1", 0, 61000⟩).1).rooms "r1" = none ∧
    61000 < 90000 := by decide

/-- C2: a room in the grace state (producer slot empty, marker set, no
viewer) is *omitted* from the listing: the `robot_disconnected` branch of
`sendAvailableRooms` requires `room.robot` to be truthy, but the close
handler nulls it when setting the marker, so `get_rooms` returns an empty
list where the claim requires a `reconnecting`-tagged entry. -/
theorem c2_grace_room_omitted_from_listing :
    lookupA lonelyGraceState.rooms "r1" = some 0 ∧
    lookupA lonelyGraceState.roomHeap 0
      = some { robot := none, web := none, robotDisconnectedAt := some 100 } ∧
    (sendAvailableRooms lonelyGraceState "W").2
      = [("W", .availableRooms [])] := by decide

/-! ## C3: register does not bind the role exactly once -/

/-- C3 counterexample: `"C"` is registered as a web client, yet a second
`register` naming the robot role is answered with `registered` (not an
error) and overwrites the stored role, robotId and joinedAt. -/
theorem c3_second_register_overwrites :
    lookupA webRegistered.clients "C" = some ⟨.web, none, 5⟩ ∧
    registerClient webRegistered "C" "robot" (some "bot7") 9
      = ({ webRegistered with clients := [("C", ⟨.robot, some "bot7", 9⟩)] },
         [("C", .registered "C" .robot)]) := by decide

/-! ## Association-list lemmas -/

theorem lookupA_setA_self {α β : Type} [DecidableEq α]
    (l : List (α × β)) (k : α) (v : β) : lookupA (setA l k v) k = some v := by
  induction l with
  | nil => simp [setA, lookupA]
  | cons hd tl ih =>
      obtain ⟨k0, v0⟩ := hd
      by_cases h : k0 = k
      · subst h; simp [setA, lookupA]
      · simp [setA, lookupA, h, ih]

theorem lookupA_setA_ne {α β : Type} [DecidableEq α]
    (l : List (α × β)) (k k' : α) (v : β) (h : k ≠ k') :
    lookupA (setA l k v) k' = lookupA l k' := by
  induction l with
  | nil => simp [setA, lookupA, h]
  | cons hd tl ih =>
      obtain ⟨k0, v0⟩ := hd
      by_cases h0 : k0 = k
      · subst h0; simp [setA, lookupA, h]
      · simp [setA, lookupA, h0, ih]

theorem setA_setA {α β : Type} [DecidableEq α]
    (l : List (α × β)) (k : α) (v w : β) :
    setA (setA l k v) k w = setA l k w := by
  induction l with
  | nil => simp [setA]
  | cons hd tl ih =>
      obtain ⟨k0, v0⟩ := hd
      by_cases h0 : k0 = k
      · subst h0; simp [setA]
      · simp [setA, h0, ih]

theorem lookupA_delA_ne {α β : Type} [DecidableEq α]
    (l : List (α × β)) (k k' : α) (h : k ≠ k') :
    lookupA (delA l k) k' = lookupA l k' := by
  induction l with
  | nil => simp [delA]
  | cons hd tl ih =>
      obtain ⟨k0, v0⟩ := hd
      by_cases h0 : k0 = k
      · subst h0; simp [delA, lookupA, h, ih]
      · simp [delA, lookupA, h0, ih]

theorem lookupA_none_keys {α β : Type} [DecidableEq α]
    (l : List (α × β)) (k : α) (h : lookupA l k = none) :
    ∀ q ∈ l, q.1 ≠ k := by
  induction l with
  | nil => simp
  | cons hd tl ih =>
      obtain ⟨k0, v0⟩ := hd
      by_cases h0 : k0 = k
      · simp [lookupA, h0] at h
      · intro q hq
        rcases List.mem_cons.mp hq with hq | hq
        · simp [hq, h0]
        · exact ih (by simpa [lookupA, h0] using h) q hq

theorem setA_append_of_none {α β : Type} [DecidableEq α]
    (l : List (α × β)) (k : α) (v : β) (h : lookupA l k = none) :
    setA l k v = l ++ [(k, v)] := by
  induction l with
  | nil => simp [setA]
  | cons hd tl ih =>
      obtain ⟨k0, v0⟩ := hd
      by_cases h0 : k0 = k
      · simp [lookupA, h0] at h
      · simp [setA, h0, ih (by simpa [lookupA, h0] using h)]

theorem setA_self_of_lookup {α β : Type} [DecidableEq α]
    (l : List (α × β)) (k : α) (v : β) (h : lookupA l k = some v) :
    setA l k v = l := by
  induction l with
  | nil => simp [lookupA] at h
  | cons hd tl ih =>
      obtain ⟨k0, v0⟩ := hd
      by_cases h0 : k0 = k
      · have : v0 = v := by simpa [lookupA, h0] using h
        simp [setA, h0, this]
      · simp [setA, h0, ih (by simpa [lookupA, h0] using h)]

theorem lookupA_append_first_miss {α β : Type} [DecidableEq α]
    (pre rest : List (α × β)) (k : α) (v : β)
    (h : ∀ q ∈ pre, q.1 ≠ k) :
    lookupA (pre ++ (k, v) :: rest) k = some v := by
  induction pre with
  | nil => simp [lookupA]
  | cons hd tl ih =>
      obtain ⟨k0, v0⟩ := hd
      have hk0 : k0 ≠ k := h (k0, v0) (by simp)
      simpa [lookupA, hk0] using ih (fun q hq => h q (by simp [hq]))

/-! ## C3: amended register behavior -/

/-- C3 (amended): `registerClient` validates only the role string.  A
`clientType` outside `{robot, web}` is rejected with an error and registers
nothing; any valid request — including a second `register` on an
already-registered connection — succeeds, replies `registered`, and
(over)writes the connection's type, robotId and joinedAt. -/
theorem c3_register_amended (s : ServerState) (cid : ClientId)
    (ct : String) (rid : Option String) (now : Nat) :
    (ct ≠ "robot" → ct ≠ "web" →
      registerClient s cid ct rid now = (s, [(cid, .errorMsg "Invalid client type")])) ∧
    (ct = "robot" →
      registerClient s cid ct rid now
        = ({ s with clients := setA s.clients cid ⟨.robot, some (orFalsy rid cid), now⟩ },
           [(cid, .registered cid .robot)])) ∧
    (ct = "web" →
      registerClient s cid ct rid now
        = ({ s with clients := setA s.clients cid ⟨.web, none, now⟩ },
           [(cid, .registered cid .web)])) := by
  refine ⟨fun h1 h2 => ?_, fun h => ?_, fun h => ?_⟩
  · simp [registerClient, h1, h2]
  · subst h; simp [registerClient]
  · subst h; simp [registerClient]

/-- C3 witness: the amended theorem evaluated on the overwrite scenario of
the counterexample. -/
theorem c3_register_amended_witness :
    registerClient webRegistered "C" "robot" (some "bot7") 9
      = ({ webRegistered with
            clients := setA webRegistered.clients "C" ⟨.robot, some (orFalsy (some "bot7") "C"), 9⟩ },
         [("C", .registered "C" .robot)]) :=
  (c3_register_amended webRegistered "C" "robot" (some "bot7") 9).2.1 rfl

/-! ## C4: the rejected viewer join leaves an empty room entry -/

/-- C4 counterexample: a registered web client joining the unknown room
`"ghost"` is turned away with `no_robot` and stays unbound, yet the rooms
map now contains an entry for `"ghost"` — the empty room object created
before the check — contradicting the claim that the map is left without
that id. -/
theorem c4_rejected_join_leaves_empty_room :
    (joinRoom viewerOnlyState "W" "ghost").2 = [("W", .roomStatus "ghost" "no_robot")] ∧
    lookupA (joinRoom viewerOnlyState "W" "ghost").1.rooms "ghost" = some 0 ∧
    lookupA (joinRoom viewerOnlyState "W" "ghost").1.roomHeap 0
      = some { robot := none, web := none, robotDisconnectedAt := none } := by decide

/-- Every entry of the listing comes from a room in the map whose object has
an occupied robot slot (both listing branches require `room.robot` truthy). -/
theorem avail_mem_shape (clients : List (ClientId × ClientInfo))
    (heap : List (ObjId × Room)) :
    ∀ (rs : List (String × ObjId)) (e : RoomEntry), e ∈ availEntries clients heap rs →
    ∃ q, q ∈ rs ∧ e.roomId = q.1 ∧
      ((lookupA heap q.2).getD {}).robot.isSome = true := by
  intro rs
  induction rs with
  | nil => intro e he; simp [availEntries] at he
  | cons hd tl ih =>
      obtain ⟨r0, o0⟩ := hd
      intro e he
      simp only [availEntries] at he
      split at he
      · rename_i hA
        split at he
        · rename_i rId hrob
          split at he
          · rcases List.mem_cons.mp he with rfl | he2
            · exact ⟨(r0, o0), by simp, rfl, by rw [hrob]; rfl⟩
            · obtain ⟨q, hq, h1, h2⟩ := ih e he2
              exact ⟨q, List.mem_cons_of_mem _ hq, h1, h2⟩
          · obtain ⟨q, hq, h1, h2⟩ := ih e he
            exact ⟨q, List.mem_cons_of_mem _ hq, h1, h2⟩
        · obtain ⟨q, hq, h1, h2⟩ := ih e he
          exact ⟨q, List.mem_cons_of_mem _ hq, h1, h2⟩
      · split at he
        · rename_i hB
          rcases List.mem_cons.mp he with rfl | he2
          · exact ⟨(r0, o0), by simp, rfl, hB.1⟩
          · obtain ⟨q, hq, h1, h2⟩ := ih e he2
            exact ⟨q, List.mem_cons_of_mem _ hq, h1, h2⟩
        · obtain ⟨q, hq, h1, h2⟩ := ih e he
          exact ⟨q, List.mem_cons_of_mem _ hq, h1, h2⟩

/-- C4 (amended): a viewer `join_room` naming a room with no producer bound
and no grace marker is rejected with a `no_robot` status reply and the
viewer slot stays unbound.  When such a room already exists (e.g. the empty
entry left by an earlier rejected join) the request changes no state at
all; but a join naming a previously unknown room id leaves a fresh empty
`{robot: null, web: null}` entry in the rooms map, created before the
rejection check — and that empty entry never appears in the `get_rooms`
listing, since every listed room has an occupied producer slot. -/
theorem c4_join_no_producer_amended (s : ServerState) (cid : ClientId)
    (roomId : String) (c : ClientInfo)
    (hc : lookupA s.clients cid = some c) (hw : c.type = .web) :
    (lookupA s.rooms roomId = none →
      joinRoom s cid roomId
        = ({ s with roomHeap := setA s.roomHeap s.nextObj {},
                    rooms := setA s.rooms roomId s.nextObj,
                    nextObj := s.nextObj + 1 },
           [(cid, .roomStatus roomId "no_robot")]) ∧
      (∀ e ∈ availEntries s.clients (setA s.roomHeap s.nextObj {})
          (setA s.rooms roomId s.nextObj), e.roomId ≠ roomId)) ∧
    (∀ oid room, lookupA s.rooms roomId = some oid →
      lookupA s.roomHeap oid = some room →
      room.robot = none → room.robotDisconnectedAt = none → room.web = none →
      joinRoom s cid roomId = (s, [(cid, .roomStatus roomId "no_robot")])) := by
  constructor
  · intro hrN
    constructor
    · simp only [joinRoom, hc, hrN, hw, lookupA_setA_self, setA_setA, Option.getD_some]
      simp
    · intro e he heq
      obtain ⟨q, hq, h1, h2⟩ :=
        avail_mem_shape s.clients (setA s.roomHeap s.nextObj {}) _ e he
      rw [setA_append_of_none s.rooms roomId s.nextObj hrN] at hq
      rcases List.mem_append.mp hq with hq | hq
      · exact lookupA_none_keys s.rooms roomId hrN q hq (h1.symm.trans heq)
      · simp only [List.mem_singleton] at hq
        subst hq
        simp [lookupA_setA_self] at h2
  · intro oid room hrS hm hrobN hmkN hwebN
    simp only [joinRoom, hc, hrS, hm, Option.getD_some]
    simp [hw, hrobN, hmkN, hwebN, setA_self_of_lookup s.roomHeap oid room hm]

/-- The state after the rejected `"ghost"` join: the empty room entry sits in
the map. -/
def ghostState : ServerState := (joinRoom viewerOnlyState "W" "ghost").1

/-- C4 witness: a *repeat* viewer join of the existing empty `"ghost"` room
is rejected again and changes nothing. -/
theorem c4_join_no_producer_amended_witness :
    joinRoom ghostState "W" "ghost"
      = (ghostState, [("W", .roomStatus "ghost" "no_robot")]) :=
  (c4_join_no_producer_amended ghostState "W" "ghost" ⟨.web, none, 3⟩
      (by decide) rfl).2
    0 { robot := none, web := none, robotDisconnectedAt := none }
    (by decide) (by decide) rfl rfl rfl

/-! ## C5: peer_joined is resent on repeated joins -/

/-- C5 counterexample: pairing `"W"` into `"r1"` sends `peer_joined` to both
sides; an immediately repeated `join_room` by the already-bound `"W"`
completes no new pairing yet sends the very same `peer_joined` pair again,
contradicting "exactly once per pairing event". -/
theorem c5_repeated_join_resends_peer_joined :
    (joinRoom beforePairState "W" "r1").2
      = [("W", .roomJoined "r1" .web true true false),
         ("R", .peerJoined "W" .web none),
         ("W", .peerJoined "R" .robot (some "R"))] ∧
    lookupA pairedState.roomHeap 0
      = some { robot := some "R", web := some "W", robotDisconnectedAt := none } ∧
    (joinRoom pairedState "W" "r1").2
      = [("W", .roomJoined "r1" .web true true false),
         ("R", .peerJoined "W" .web none),
         ("W", .peerJoined "R" .robot (some "R"))] := by decide

/-- C5 (amended): every accepted `join_room` that completes with both slots
occupied and both connections resolvable sends `peer_joined` to both sides
with the other peer's identity — including a repeated join by a client
already bound in its slot, so `peer_joined` recurs once per such join
rather than once per pairing event.  The two conjuncts cover a web-side
and a robot-side join. -/
theorem c5_pair_notification_amended (s : ServerState) (cid : ClientId)
    (roomId : String) (c : ClientInfo) (oid : ObjId) (room : Room)
    (hc : lookupA s.clients cid = some c)
    (hr : lookupA s.rooms roomId = some oid)
    (hm : lookupA s.roomHeap oid = some room) :
    (∀ rId rc, c.type = .web → room.robot = some rId →
      (room.web = none ∨ room.web = some cid) →
      lookupA s.clients rId = some rc →
      (joinRoom s cid roomId).2
        = [(cid, .roomJoined roomId .web true true room.robotDisconnectedAt.isSome),
           (rId, .peerJoined cid .web none),
           (cid, .peerJoined rId .robot rc.robotId)]) ∧
    (∀ wId wc, c.type = .robot →
      (room.robot = none ∨ room.robot = some cid) →
      room.web = some wId →
      lookupA s.clients wId = some wc →
      (joinRoom s cid roomId).2
        = [(wId, .robotReconnected roomId c.robotId),
           (cid, .roomJoined roomId .robot true true false),
           (cid, .peerJoined wId .web none),
           (wId, .peerJoined cid .robot c.robotId)]) := by
  constructor
  · intro rId rc hweb hrob hwslot hrc
    have hnr : room.robot.isNone = false := by simp [hrob]
    simp only [joinRoom, hc, hr, hm, hweb, Option.getD_some]
    have hcl : (room.robotDisconnectedAt.isSome ∧ ClientType.web = ClientType.robot)
        = False := by simp
    rcases hwslot with hnone | hself
    · simp [hnone, hrob, hrc, hc, pairNotify, lookupA_setA_self, setA_setA]
    · simp [hself, hrob, hrc, hc, pairNotify, lookupA_setA_self, setA_setA]
  · intro wId wc hrobot hrslot hwslot hwc
    simp only [joinRoom, hc, hr, hm, hrobot, Option.getD_some]
    rcases hrslot with hnone | hself
    · cases hdm : room.robotDisconnectedAt <;>
        simp [hnone, hwslot, hwc, hc, hdm, pairNotify, lookupA_setA_self, setA_setA]
    · cases hdm : room.robotDisconnectedAt <;>
        simp [hself, hwslot, hwc, hc, hdm, pairNotify, lookupA_setA_self, setA_setA]

/-- C5 witness: the amended theorem evaluated on the repeated-join scenario
(`"W"` already bound in the paired room rejoins). -/
theorem c5_pair_notification_amended_witness :
    (joinRoom pairedState "W" "r1").2
      = [("W", .roomJoined "r1" .web true true
            (Room.robotDisconnectedAt
              { robot := some "R", web := some "W", robotDisconnectedAt := none }).isSome),
         ("R", .peerJoined "W" .web none),
         ("W", .peerJoined "R" .robot
            (ClientInfo.robotId ⟨.robot, some "R", 0⟩))] :=
  (c5_pair_notification_amended pairedState "W" "r1" ⟨.web, none, 1⟩ 0
      ⟨some "R", some "W", none⟩ (by decide) (by decide) (by decide)).1
    "R" ⟨.robot, some "R", 0⟩ rfl rfl (Or.inr rfl) (by decide)

/-! ## C6: protocol errors and operations before registration -/

/-- C6 counterexample: an *unregistered* sender's `offer` frame is dropped
with no reply at all — in particular no error frame — contradicting the
claim that every operation invoked before registration is answered with an
error frame. -/
theorem c6_unregistered_relay_silently_dropped :
    lookupA pairedState.clients "X" = none ∧
    onMessage pairedState "X" (some (.signaling .offer 42)) 7 = (pairedState, []) := by
  decide

/-- The room scan finds nothing when no room binds the sender. -/
theorem relayLoop_eq_none (heap : List (ObjId × Room)) (sender : ClientId)
    (rs : List (String × ObjId))
    (h : ∀ q ∈ rs, ((lookupA heap q.2).getD {}).robot ≠ some sender ∧
                   ((lookupA heap q.2).getD {}).web ≠ some sender) :
    relayLoop heap sender rs = none := by
  induction rs with
  | nil => rfl
  | cons hd tl ih =>
      obtain ⟨rid, oid⟩ := hd
      have hh := h (rid, oid) (by simp)
      simp [relayLoop, hh.1, hh.2, ih (fun q hq => h q (by simp [hq]))]

/-- C6 (amended): a frame that is not valid JSON or has an unrecognized type
is answered with exactly one error frame to the sender and mutates nothing;
of the operations sent before registration only `join_room` replies with an
error frame — `offer`/`answer`/`ice_candidate` are silently dropped with no
reply and `get_rooms` is answered with the normal listing — and in every
case no registry or room state is mutated (and nothing in the message path
closes the connection). -/
theorem c6_protocol_errors_amended (s : ServerState) (cid : ClientId) (now : Nat)
    (hreg : lookupA s.clients cid = none)
    (hnr : ∀ q ∈ s.rooms, ((lookupA s.roomHeap q.2).getD {}).robot ≠ some cid ∧
                          ((lookupA s.roomHeap q.2).getD {}).web ≠ some cid) :
    onMessage s cid none now = (s, [(cid, .errorMsg "Invalid JSON format")]) ∧
    (∀ t, onMessage s cid (some (.unknown t)) now
        = (s, [(cid, .errorMsg ("Unknown message type: " ++ t))])) ∧
    (∀ roomId, onMessage s cid (some (.joinRoomMsg roomId)) now
        = (s, [(cid, .errorMsg "Client not registered")])) ∧
    (∀ k p, onMessage s cid (some (.signaling k p)) now = (s, [])) ∧
    onMessage s cid (some .getRooms) now
      = (s, [(cid, .availableRooms (availEntries s.clients s.roomHeap s.rooms))]) := by
  refine ⟨rfl, fun t => rfl, fun roomId => ?_, fun k p => ?_, rfl⟩
  · simp [onMessage, handleMessage, joinRoom, hreg]
  · simp [onMessage, handleMessage, relaySignalingMessage,
      relayLoop_eq_none s.roomHeap cid s.rooms hnr]

/-- C6 witness: the amended theorem evaluated on the unregistered sender
`"X"` against the paired room state. -/
theorem c6_protocol_errors_amended_witness :
    onMessage pairedState "X" (some (.signaling .offer 42)) 7 = (pairedState, []) :=
  (c6_protocol_errors_amended pairedState "X" 7 (by decide) (by decide)).2.2.2.1
    .offer 42

/-! ## C7: relay stops at the first room binding the sender -/

/-- C7 counterexample: `"R"` is bound in `"r1"` (opposite slot empty) and in
`"r2"` (opposite slot `"W"`, resolvable), so the claim requires delivery to
`"W"`; the relay scans in insertion order, takes `"r1"`, finds its web slot
empty and drops the payload — nothing is delivered. -/
theorem c7_first_match_shadows_paired_room :
    lookupA twoRoomsState.rooms "r2" = some 1 ∧
    lookupA twoRoomsState.roomHeap 1
      = some { robot := some "R", web := some "W", robotDisconnectedAt := none } ∧
    (lookupA twoRoomsState.clients "W").isSome ∧
    relaySignalingMessage twoRoomsState "R" .offer 9 = (twoRoomsState, []) := by
  decide

/-- The room scan yields the opposite slot of the *first* room binding the
sender, skipping any earlier rooms that do not bind it. -/
theorem relayLoop_first_match (heap : List (ObjId × Room)) (sender : ClientId)
    (pre rest : List (String × ObjId)) (roomId : String) (oid : ObjId) (room : Room)
    (hpre : ∀ q ∈ pre, ((lookupA heap q.2).getD {}).robot ≠ some sender ∧
                       ((lookupA heap q.2).getD {}).web ≠ some sender)
    (hm : lookupA heap oid = some room)
    (hmatch : room.robot = some sender ∨ room.web = some sender) :
    relayLoop heap sender (pre ++ (roomId, oid) :: rest)
      = some (if room.robot = some sender then room.web else room.robot) := by
  induction pre with
  | nil =>
      simp only [List.nil_append, relayLoop, hm, Option.getD_some]
      rcases hmatch with h | h
      · simp [h]
      · by_cases hr : room.robot = some sender
        · simp [hr]
        · simp [hr, h]
  | cons hd tl ih =>
      obtain ⟨r0, o0⟩ := hd
      have hh := hpre (r0, o0) (by simp)
      simpa [relayLoop, hh.1, hh.2] using ih (fun q hq => hpre q (by simp [hq]))

/-- C7 (amended): the relay uses the *first* room in map insertion order
binding the sender in either slot: the payload, augmented with
`from = sender`, goes to that room's opposite occupant when it resolves in
the registry; when that first room's opposite slot is empty or its occupant
does not resolve — or when no room binds the sender at all — nothing is
delivered and no error is sent to the sender. -/
theorem c7_relay_amended (s : ServerState) (sender : ClientId)
    (k : SigKind) (p : Nat) :
    (∀ pre rest roomId oid room,
      s.rooms = pre ++ (roomId, oid) :: rest →
      (∀ q ∈ pre, ((lookupA s.roomHeap q.2).getD {}).robot ≠ some sender ∧
                  ((lookupA s.roomHeap q.2).getD {}).web ≠ some sender) →
      lookupA s.roomHeap oid = some room →
      (room.robot = some sender ∨ room.web = some sender) →
      relaySignalingMessage s sender k p
        = match (if room.robot = some sender then room.web else room.robot) with
          | none => (s, [])
          | some t =>
              match lookupA s.clients t with
              | none => (s, [])
              | some _ => (s, [(t, .relayed k p sender)])) ∧
    ((∀ q ∈ s.rooms, ((lookupA s.roomHeap q.2).getD {}).robot ≠ some sender ∧
                     ((lookupA s.roomHeap q.2).getD {}).web ≠ some sender) →
      relaySignalingMessage s sender k p = (s, [])) := by
  constructor
  · intro pre rest roomId oid room hsplit hpre hm hmatch
    have hloop : relayLoop s.roomHeap sender s.rooms
        = some (if room.robot = some sender then room.web else room.robot) := by
      rw [hsplit]
      exact relayLoop_first_match s.roomHeap sender pre rest roomId oid room
        hpre hm hmatch
    cases hcase : (if room.robot = some sender then room.web else room.robot) with
    | none => simp [relaySignalingMessage, hloop, hcase]
    | some t =>
        cases hct : lookupA s.clients t with
        | none => simp [relaySignalingMessage, hloop, hcase, hct]
        | some tc => simp [relaySignalingMessage, hloop, hcase, hct]
  · intro h
    simp [relaySignalingMessage, relayLoop_eq_none s.roomHeap sender s.rooms h]

/-- C7 witness: the amended theorem evaluated on the single paired room
(`"R"` → `"W"` with the sender's id attached). -/
theorem c7_relay_amended_witness :
    relaySignalingMessage pairedState "R" .offer 9
      = (pairedState, [("W", .relayed .offer 9 "R")]) := by
  have h := (c7_relay_amended pairedState "R" .offer 9).1 [] []
      "r1" 0 ⟨some "R", some "W", none⟩ (by decide) (by simp) (by decide)
      (Or.inl rfl)
  simpa using h

/-! ## C8: viewer disconnect preserves the room -/

/-- Rooms that do not bind the disconnecting client are scanned and passed
over unchanged by the close handler's loop. -/
theorem closeLoop_skip_miss (clients : List (ClientId × ClientInfo))
    (client : Option ClientInfo) (cid : ClientId) (now : Nat)
    (heap : List (ObjId × Room)) (pre rest : List (String × ObjId))
    (hpre : ∀ q ∈ pre, ((lookupA heap q.2).getD {}).robot ≠ some cid ∧
                       ((lookupA heap q.2).getD {}).web ≠ some cid) :
    closeLoop clients client cid now heap (pre ++ rest)
      = ((closeLoop clients client cid now heap rest).1,
         pre ++ (closeLoop clients client cid now heap rest).2.1,
         (closeLoop clients client cid now heap rest).2.2.1,
         (closeLoop clients client cid now heap rest).2.2.2) := by
  induction pre with
  | nil => simp
  | cons hd tl ih =>
      obtain ⟨r0, o0⟩ := hd
      have hh := hpre (r0, o0) (by simp)
      simp [closeLoop, hh.1, hh.2, ih (fun q hq => hpre q (by simp [hq]))]

/-- C8: a registered viewer's disconnect, when its id is bound (as viewer) in
exactly one room, clears only the viewer slot: the room entry survives in
the map with its producer slot and grace marker untouched, no grace timer
is scheduled and no `room_closed` is sent, in each of the three cases the
claim's conditional covers — producer bound to a distinct resolvable
connection (it receives exactly one `peer_disconnected`, and a subsequently
registered viewer `w2` joining the same room id is paired with it,
`peer_joined` both ways), producer slot empty (no message at all), and
producer bound but unresolvable in the registry (no message at all). -/
theorem c8_viewer_disconnect_preserves_room (s : ServerState)
    (cid : ClientId) (now : Nat) (wc : ClientInfo)
    (pre rest : List (String × ObjId)) (roomId : String) (oid : ObjId)
    (room : Room)
    (hc : lookupA s.clients cid = some wc) (hw : wc.type = .web)
    (hsplit : s.rooms = pre ++ (roomId, oid) :: rest)
    (hprek : ∀ q ∈ pre, q.1 ≠ roomId)
    (hpre : ∀ q ∈ pre, ((lookupA s.roomHeap q.2).getD {}).robot ≠ some cid ∧
                       ((lookupA s.roomHeap q.2).getD {}).web ≠ some cid)
    (hm : lookupA s.roomHeap oid = some room)
    (hweb : room.web = some cid) :
    (∀ rId rc w2 t2, room.robot = some rId → rId ≠ cid →
      lookupA s.clients rId = some rc → w2 ≠ rId →
      closeHandler s cid now
        = ({ s with clients := delA s.clients cid,
                    roomHeap := setA s.roomHeap oid { room with web := none } },
           [(rId, .peerDisconnected)]) ∧
      (joinRoom ((registerClient (closeHandler s cid now).1 w2 "web" none t2).1)
          w2 roomId).2
        = [(w2, .roomJoined roomId .web true true room.robotDisconnectedAt.isSome),
           (rId, .peerJoined w2 .web none),
           (w2, .peerJoined rId .robot rc.robotId)]) ∧
    (room.robot = none →
      closeHandler s cid now
        = ({ s with clients := delA s.clients cid,
                    roomHeap := setA s.roomHeap oid { room with web := none } },
           [])) ∧
    (∀ rId, room.robot = some rId → rId ≠ cid → lookupA s.clients rId = none →
      closeHandler s cid now
        = ({ s with clients := delA s.clients cid,
                    roomHeap := setA s.roomHeap oid { room with web := none } },
           [])) := by
  refine ⟨?_, ?_, ?_⟩
  · intro rId rc w2 t2 hrob hne hrc hw2r
    have hcidne : cid ≠ rId := fun h => hne h.symm
    have hlc2 : lookupA (delA s.clients cid) rId = some rc := by
      rw [lookupA_delA_ne s.clients cid rId hcidne]; exact hrc
    have hstep : closeLoop (delA s.clients cid) (some wc) cid now s.roomHeap
        ((roomId, oid) :: rest)
        = (setA s.roomHeap oid { room with web := none }, (roomId, oid) :: rest,
           [(rId, OutMsg.peerDisconnected)], []) := by
      simp [closeLoop, notifyIfResolvable, hm, hrob, hweb, hne, hlc2, hw]
    have h1 : closeHandler s cid now
        = ({ s with clients := delA s.clients cid,
                    roomHeap := setA s.roomHeap oid { room with web := none } },
           [(rId, OutMsg.peerDisconnected)]) := by
      simp only [closeHandler, hc, hsplit]
      rw [closeLoop_skip_miss (delA s.clients cid) (some wc) cid now s.roomHeap pre
        ((roomId, oid) :: rest) hpre, hstep]
      simp [← hsplit]
    refine ⟨h1, ?_⟩
    have hreg2 : (registerClient (closeHandler s cid now).1 w2 "web" none t2).1
        = { s with clients := setA (delA s.clients cid) w2 ⟨.web, none, t2⟩,
                   roomHeap := setA s.roomHeap oid { room with web := none } } := by
      rw [h1]; simp [registerClient]
    rw [hreg2]
    have hw2l : lookupA (setA (delA s.clients cid) w2
        (⟨.web, none, t2⟩ : ClientInfo)) w2 = some ⟨.web, none, t2⟩ :=
      lookupA_setA_self (delA s.clients cid) w2 ⟨.web, none, t2⟩
    have hrm : lookupA s.rooms roomId = some oid := by
      rw [hsplit]; exact lookupA_append_first_miss pre rest roomId oid hprek
    have hrh2 : lookupA (setA s.roomHeap oid { room with web := none }) oid
        = some { robot := some rId, web := none,
                 robotDisconnectedAt := room.robotDisconnectedAt } := by
      rw [lookupA_setA_self s.roomHeap oid { room with web := none }, hrob]
    have hrId2 : lookupA (setA (delA s.clients cid) w2
        (⟨.web, none, t2⟩ : ClientInfo)) rId = some rc := by
      rw [lookupA_setA_ne (delA s.clients cid) w2 rId _ hw2r]; exact hlc2
    simp [joinRoom, hw2l, hrm, hrh2, hrId2, pairNotify]
  · intro hrobN
    have hstep : closeLoop (delA s.clients cid) (some wc) cid now s.roomHeap
        ((roomId, oid) :: rest)
        = (setA s.roomHeap oid { room with web := none }, (roomId, oid) :: rest,
           [], []) := by
      simp [closeLoop, notifyIfResolvable, hm, hrobN, hweb, hw]
    simp only [closeHandler, hc, hsplit]
    rw [closeLoop_skip_miss (delA s.clients cid) (some wc) cid now s.roomHeap pre
      ((roomId, oid) :: rest) hpre, hstep]
    simp [← hsplit]
  · intro rId hrob hne hrcn
    have hcidne : cid ≠ rId := fun h => hne h.symm
    have hlcn : lookupA (delA s.clients cid) rId = none := by
      rw [lookupA_delA_ne s.clients cid rId hcidne]; exact hrcn
    have hstep : closeLoop (delA s.clients cid) (some wc) cid now s.roomHeap
        ((roomId, oid) :: rest)
        = (setA s.roomHeap oid { room with web := none }, (roomId, oid) :: rest,
           [], []) := by
      simp [closeLoop, notifyIfResolvable, hm, hrob, hweb, hne, hlcn, hw]
    simp only [closeHandler, hc, hsplit]
    rw [closeLoop_skip_miss (delA s.clients cid) (some wc) cid now s.roomHeap pre
      ((roomId, oid) :: rest) hpre, hstep]
    simp [← hsplit]

/-- C8 witness: the paired room `"r1"` after viewer `"W"` drops at `t = 50`
(producer `"R"` notified, fresh viewer `"W2"` re-pairs with it), and the
grace room after the parked viewer `"W"` drops at `t = 20` (producer slot
empty: slot cleared, marker kept, no message). -/
theorem c8_viewer_disconnect_preserves_room_witness :
    (closeHandler pairedState "W" 50
      = ({ pairedState with
            clients := delA pairedState.clients "W",
            roomHeap := setA pairedState.roomHeap 0
              { robot := some "R", web := none, robotDisconnectedAt := none } },
         [("R", .peerDisconnected)]) ∧
     (joinRoom ((registerClient (closeHandler pairedState "W" 50).1
        "W2" "web" none 99).1) "W2" "r1").2
      = [("W2", .roomJoined "r1" .web true true
            (Room.robotDisconnectedAt
              { robot := some "R", web := some "W", robotDisconnectedAt := none }).isSome),
         ("R", .peerJoined "W2" .web none),
         ("W2", .peerJoined "R" .robot
            (ClientInfo.robotId ⟨.robot, some "R", 0⟩))]) ∧
    closeHandler graceParkedState "W" 20
      = ({ graceParkedState with
            clients := delA graceParkedState.clients "W",
            roomHeap := setA graceParkedState.roomHeap 0
              { robot := none, web := none, robotDisconnectedAt := some 10 } },
         []) :=
  ⟨(c8_viewer_disconnect_preserves_room pairedState "W" 50 ⟨.web, none, 1⟩ [] []
      "r1" 0 ⟨some "R", some "W", none⟩
      (by decide) rfl (by decide) (by simp) (by simp) (by decide) rfl).1
      "R" ⟨.robot, some "R", 0⟩ "W2" 99 rfl (by decide) (by decide) (by decide),
   (c8_viewer_disconnect_preserves_room graceParkedState "W" 20 ⟨.web, none, 1⟩ [] []
      "r1" 0 ⟨none, some "W", some 10⟩
      (by decide) rfl (by decide) (by simp) (by simp) (by decide) rfl).2.1 rfl⟩

/-! ## C9: heartbeat eviction -/

/-- A connection is in the terminated list of a cycle exactly when its
`isAlive` flag was still cleared from the previous probe. -/
theorem heartbeatCycle_terminated_iff (conns : List (ClientId × Bool)) (cid : ClientId) :
    cid ∈ (heartbeatCycle conns).1 ↔ (cid, false) ∈ conns := by
  induction conns with
  | nil => simp [heartbeatCycle]
  | cons hd tl ih =>
      obtain ⟨c0, a0⟩ := hd
      cases a0 <;> simp [heartbeatCycle, ih, Prod.ext_iff]

/-- Surviving connections come out with the flag cleared, and exactly they
are probed. -/
theorem heartbeatCycle_survivors (conns : List (ClientId × Bool)) :
    (heartbeatCycle conns).2.1
      = (conns.filter fun c => c.2).map (fun c => (c.1, false)) ∧
    (heartbeatCycle conns).2.2 = (conns.filter fun c => c.2).map (fun c => c.1) := by
  induction conns with
  | nil => simp [heartbeatCycle]
  | cons hd tl ih =>
      obtain ⟨c0, a0⟩ := hd
      cases a0 <;> simp [heartbeatCycle, List.filter, ih.1, ih.2]

/-- C9: in every liveness cycle a connection is forcibly terminated iff its
acknowledgment flag is still cleared, i.e. it sent no protocol-level `pong`
since the previous cycle's probe; every surviving connection has the flag
cleared and a probe sent; a protocol `pong` sets the flag, while an
application-level `ping` message is answered with `pong` immediately but
leaves the flag untouched, so it never by itself prevents eviction. -/
theorem c9_heartbeat_eviction (conns : List (ClientId × Bool)) (cid : ClientId)
    (alive : Bool) (now : Nat) :
    (cid ∈ (heartbeatCycle conns).1 ↔ (cid, false) ∈ conns) ∧
    (heartbeatCycle conns).2.1
      = (conns.filter fun c => c.2).map (fun c => (c.1, false)) ∧
    (heartbeatCycle conns).2.2 = (conns.filter fun c => c.2).map (fun c => c.1) ∧
    connEventStep alive .protoPong now = (true, []) ∧
    connEventStep alive .appPing now = (alive, [.pong now]) :=
  ⟨heartbeatCycle_terminated_iff conns cid, (heartbeatCycle_survivors conns).1,
   (heartbeatCycle_survivors conns).2, rfl, rfl⟩

/-! ## C10: the close handler processes at most one room -/

/-- Every message produced by `notifyIfResolvable` is addressed to the
target slot's occupant. -/
theorem mem_notifyIfResolvable (clients : List (ClientId × ClientInfo))
    (target : Option ClientId) (msg : OutMsg) (m : ClientId × OutMsg)
    (hm : m ∈ notifyIfResolvable clients target msg) : some m.1 = target := by
  cases target with
  | none => simp [notifyIfResolvable] at hm
  | some o =>
      by_cases hl : (lookupA clients o).isSome
      · simp [notifyIfResolvable, hl] at hm
        simp [hm]
      · simp [notifyIfResolvable, hl] at hm

/-- Processing the first matching room: the scan stops there, the heap is
changed at most at that room's object, every message is addressed to that
room's other occupant, and any scheduled timer tags that room. -/
theorem closeLoop_head_match (clients : List (ClientId × ClientInfo))
    (client : Option ClientInfo) (cid : ClientId) (now : Nat)
    (heap : List (ObjId × Room)) (rest : List (String × ObjId))
    (roomId : String) (oid : ObjId) (room : Room)
    (hm : lookupA heap oid = some room)
    (hmatch : room.robot = some cid ∨ room.web = some cid) :
    ∃ heapOut roomsMid msgs tms,
      closeLoop clients client cid now heap ((roomId, oid) :: rest)
        = (heapOut, roomsMid ++ rest, msgs, tms) ∧
      (∀ o2, o2 ≠ oid → lookupA heapOut o2 = lookupA heap o2) ∧
      (∀ m ∈ msgs, some m.1
        = (if room.robot = some cid then room.web else room.robot)) ∧
      (∀ t ∈ tms, t.roomId = roomId ∧ t.capturedObj = oid) := by
  have hr : (lookupA heap oid).getD ({} : Room) = room := by rw [hm]; rfl
  cases client with
  | none =>
      refine ⟨heap, [],
        notifyIfResolvable clients
          (if room.robot = some cid then room.web else room.robot) .peerDisconnected,
        [], ?_, fun o2 h2 => rfl,
        fun m hm2 => mem_notifyIfResolvable clients _ _ m hm2, by simp⟩
      simp only [closeLoop, hr]
      rw [if_pos hmatch]
      simp
  | some c =>
      cases hct : c.type with
      | robot =>
          refine ⟨setA heap oid
              { room with robot := none, robotDisconnectedAt := some now },
            [(roomId, oid)],
            notifyIfResolvable clients
                (if room.robot = some cid then room.web else room.robot)
                .peerDisconnected
              ++ notifyIfResolvable clients
                (if room.robot = some cid then room.web else room.robot)
                (.robotDisconnected roomId),
            [⟨roomId, oid, now + 60000⟩], ?_, ?_, ?_, ?_⟩
          · simp only [closeLoop, hr]
            rw [if_pos hmatch]
            simp [hct]
          · intro o2 h2
            exact lookupA_setA_ne heap oid o2 _ (Ne.symm h2)
          · intro m hm2
            rcases List.mem_append.mp hm2 with h | h
            · exact mem_notifyIfResolvable clients _ _ m h
            · exact mem_notifyIfResolvable clients _ _ m h
          · intro t ht
            simp at ht
            subst ht
            exact ⟨rfl, rfl⟩
      | web =>
          refine ⟨setA heap oid { room with web := none }, [(roomId, oid)],
            notifyIfResolvable clients
              (if room.robot = some cid then room.web else room.robot)
              .peerDisconnected,
            [], ?_, ?_,
            fun m hm2 => mem_notifyIfResolvable clients _ _ m hm2, by simp⟩
          · simp only [closeLoop, hr]
            rw [if_pos hmatch]
            simp [hct]
          · intro o2 h2
            exact lookupA_setA_ne heap oid o2 _ (Ne.symm h2)

/-- C10: the close handler processes at most one room per closing
connection — the loop stops at the first room (in map insertion order)
binding the disconnecting client, so any later room binding the same id
stays in the map with its slots and grace marker unchanged (it still binds
the id), every emitted message is addressed to the *first* room's other
occupant, and any newly scheduled grace timer tags the first room only. -/
theorem c10_close_processes_only_first_room (s : ServerState) (cid : ClientId)
    (now : Nat) (pre rest : List (String × ObjId))
    (roomId1 : String) (oid1 : ObjId) (room1 : Room)
    (rid2 : String) (oid2 : ObjId) (room2 : Room)
    (hsplit : s.rooms = pre ++ (roomId1, oid1) :: rest)
    (hpre : ∀ q ∈ pre, ((lookupA s.roomHeap q.2).getD {}).robot ≠ some cid ∧
                       ((lookupA s.roomHeap q.2).getD {}).web ≠ some cid)
    (hm1 : lookupA s.roomHeap oid1 = some room1)
    (hmatch : room1.robot = some cid ∨ room1.web = some cid)
    (hin2 : (rid2, oid2) ∈ rest)
    (hne : oid2 ≠ oid1)
    (hm2 : lookupA s.roomHeap oid2 = some room2)
    (hbind2 : room2.robot = some cid ∨ room2.web = some cid) :
    (rid2, oid2) ∈ (closeHandler s cid now).1.rooms ∧
    lookupA (closeHandler s cid now).1.roomHeap oid2 = some room2 ∧
    (room2.robot = some cid ∨ room2.web = some cid) ∧
    (∀ m ∈ (closeHandler s cid now).2,
        some m.1 = (if room1.robot = some cid then room1.web else room1.robot)) ∧
    (∀ t ∈ (closeHandler s cid now).1.timers,
        t ∈ s.timers ∨ (t.roomId = roomId1 ∧ t.capturedObj = oid1)) := by
  obtain ⟨heapOut, roomsMid, msgs, tms, heq, hheap, hmsg, htms⟩ :=
    closeLoop_head_match (delA s.clients cid) (lookupA s.clients cid) cid now
      s.roomHeap rest roomId1 oid1 room1 hm1 hmatch
  have hch : closeHandler s cid now
      = ({ s with clients := delA s.clients cid, roomHeap := heapOut,
                  rooms := pre ++ (roomsMid ++ rest),
                  timers := s.timers ++ tms }, msgs) := by
    simp only [closeHandler, hsplit]
    rw [closeLoop_skip_miss (delA s.clients cid) (lookupA s.clients cid) cid now
      s.roomHeap pre ((roomId1, oid1) :: rest) hpre, heq]
  refine ⟨?_, ?_, hbind2, ?_, ?_⟩
  · rw [hch]
    exact List.mem_append_right pre (List.mem_append_right roomsMid hin2)
  · rw [hch]
    show lookupA heapOut oid2 = some room2
    rw [hheap oid2 hne]
    exact hm2
  · rw [hch]
    intro m hm'
    exact hmsg m hm'
  · rw [hch]
    intro t ht
    rcases List.mem_append.mp ht with h | h
    · exact Or.inl h
    · exact Or.inr (htms t h)

/-- C10 witness: `"R"` is bound in `"r1"` and `"r2"`; after its disconnect
the second room still holds the stale binding unchanged. -/
theorem c10_close_processes_only_first_room_witness :
    lookupA (closeHandler twoRoomsState "R" 77).1.roomHeap 1
      = some { robot := some "R", web := some "W", robotDisconnectedAt := none } :=
  (c10_close_processes_only_first_room twoRoomsState "R" 77 [] [("r2", 1)]
      "r1" 0 { robot := some "R", web := none, robotDisconnectedAt := none }
      "r2" 1 { robot := some "R", web := some "W", robotDisconnectedAt := none }
      (by decide) (by simp) (by decide) (Or.inl rfl) (by decide) (by decide)
      (by decide) (Or.inl rfl)).2.1

end WebrtcDemo
